import Mathlib

/-!
Shallow embedding of the `StripeClient` HTTP client
(`cloud9-labs/mcp-stripe`, file `stripe.ts`): its request throttler,
request builder, transport/retry loop, response mapping, credential
handling and the thin per-resource parameter adapters.

Times are modelled as integer milliseconds.  The model is deterministic:
time advances exactly by the suspensions the code performs (the
`setTimeout` waits), and `Date.now()` readings are the resulting instants.
HTTP traffic is modelled by a scripted list of `FetchResponse` values, one
per physical network attempt.
-/

namespace StripeSpec

/-! Request Throttler (`StripeClient.throttle`, lines 25–43) -/

/-- The `windowMs` constant of `throttle`: the sliding rate window, 1000 ms. -/
def windowMs : Int := 1000

/-- The `maxRequests` constant of `throttle`: at most 25 admitted calls per window. -/
def maxRequests : Nat := 25

/-- The fixed `+ 50` safety margin added to the computed wait in `throttle`. -/
def safetyMarginMs : Int := 50

/-- Line 30–32: `this.requestTimestamps = this.requestTimestamps.filter(ts => now - ts < windowMs)`. -/
def pruneLog (now : Int) (log : List Int) : List Int :=
  log.filter (fun ts => decide (now - ts < windowMs))

/-- Lines 34–40: the effective suspension (in ms) performed by `throttle` at
instant `now` with timestamp log `log`.  If after pruning at least
`maxRequests` entries remain, the wait is
`windowMs - (now - oldest) + 50`, skipped when not positive; otherwise 0. -/
def throttleWaitMs (now : Int) (log : List Int) : Int :=
  let pruned := pruneLog now log
  if maxRequests ≤ pruned.length then
    let oldest := pruned.headD 0
    let w := windowMs - (now - oldest) + safetyMarginMs
    if 0 < w then w else 0
  else 0

/-- One full `throttle()` call entered at instant `now`: returns the
suspension performed and the updated log.  Line 42 re-reads `Date.now()`
after the wait, so the appended timestamp is `now + wait`. -/
def throttle (now : Int) (log : List Int) : Int × List Int :=
  (throttleWaitMs now log, pruneLog now log ++ [now + throttleWaitMs now log])

/-- A sequence of `throttle()` calls entered at the given instants, threaded
through the timestamp log; returns the per-call suspensions and the final log. -/
def throttleTrace : List Int → List Int → List Int × List Int
  | [], log => ([], log)
  | t :: ts, log =>
    ((throttle t log).1 :: (throttleTrace ts (throttle t log).2).1,
     (throttleTrace ts (throttle t log).2).2)

theorem throttleWaitMs_of_under (now : Int) (log : List Int)
    (h : (pruneLog now log).length < maxRequests) : throttleWaitMs now log = 0 := by
  unfold throttleWaitMs
  simp only
  rw [if_neg (Nat.not_le.mpr h)]

theorem pruneLog_eq_self (now : Int) (log : List Int)
    (h : ∀ x ∈ log, now - x < windowMs) : pruneLog now log = log := by
  unfold pruneLog
  apply List.filter_eq_self.mpr
  intro a ha
  simpa using h a ha

theorem throttleTrace_under_limit :
    ∀ ts acc : List Int, acc.length + ts.length ≤ maxRequests →
    List.Pairwise (fun x y : Int => y - x < windowMs) (acc ++ ts) →
    throttleTrace ts acc = (List.replicate ts.length 0, acc ++ ts) := by
  intro ts
  induction ts with
  | nil => intro acc _ _; simp [throttleTrace]
  | cons t ts ih =>
    intro acc hlen hpw
    have hmem : ∀ x ∈ acc, t - x < windowMs := by
      intro x hx
      exact (List.pairwise_append.mp hpw).2.2 x hx t (List.mem_cons_self t ts)
    have hkeep : pruneLog t acc = acc := pruneLog_eq_self t acc hmem
    have hlt : (pruneLog t acc).length < maxRequests := by
      rw [hkeep]
      simp only [List.length_cons] at hlen
      omega
    have hwait : throttleWaitMs t acc = 0 := throttleWaitMs_of_under t acc hlt
    have hthr : throttle t acc = (0, acc ++ [t]) := by
      unfold throttle
      rw [hwait, hkeep, Int.add_zero]
    have hlen' : (acc ++ [t]).length + ts.length ≤ maxRequests := by
      simp only [List.length_append, List.length_cons, List.length_nil] at hlen ⊢
      omega
    have hpw' : List.Pairwise (fun x y : Int => y - x < windowMs) ((acc ++ [t]) ++ ts) := by
      rw [List.append_assoc, List.singleton_append]
      exact hpw
    simp only [throttleTrace, hthr, ih (acc ++ [t]) hlen' hpw', List.length_cons,
      List.replicate_succ, List.append_assoc, List.singleton_append]

theorem throttleWaitMs_of_full (now : Int) (log : List Int)
    (hlen : maxRequests ≤ (pruneLog now log).length)
    (hpos : 0 < windowMs - (now - (pruneLog now log).headD 0) + safetyMarginMs) :
    throttleWaitMs now log = windowMs - (now - (pruneLog now log).headD 0) + safetyMarginMs := by
  unfold throttleWaitMs
  simp only
  rw [if_pos hlen, if_pos hpos]

theorem throttleTrace_append (xs ys : List Int) : ∀ log : List Int,
    throttleTrace (xs ++ ys) log =
      ((throttleTrace xs log).1 ++ (throttleTrace ys (throttleTrace xs log).2).1,
       (throttleTrace ys (throttleTrace xs log).2).2) := by
  induction xs with
  | nil => intro log; simp [throttleTrace]
  | cons x xs ih => intro log; simp [throttleTrace, ih]

/-- C1: the admission step prunes timestamps older than 1 second, suspends for
`(1000 − (now − oldest)) + 50` ms when at least 25 remain (skipping a
non-positive wait), and appends the post-wait instant.  Consequently at most
25 calls inside one 1-second window are never delayed, and a 26th call inside
the same window as the prior 25 is suspended until at least the window start
plus the window length plus the safety margin. -/
theorem throttle_admission_spec :
    (∀ calls : List Int, calls.length ≤ maxRequests →
       List.Pairwise (fun x y : Int => y - x < windowMs) calls →
       (throttleTrace calls []).1 = List.replicate calls.length 0) ∧
    (∀ t0 t26 : Int, ∀ ptail : List Int, ptail.length = 24 →
       List.Pairwise (fun x y : Int => y - x < windowMs) ((t0 :: ptail) ++ [t26]) →
       (throttleTrace ((t0 :: ptail) ++ [t26]) []).1
         = List.replicate maxRequests 0 ++ [windowMs - (t26 - t0) + safetyMarginMs] ∧
       0 < windowMs - (t26 - t0) + safetyMarginMs ∧
       t0 + windowMs + safetyMarginMs ≤ t26 + (windowMs - (t26 - t0) + safetyMarginMs)) := by
  constructor
  · intro calls hlen hpw
    have h := throttleTrace_under_limit calls [] (by simpa using hlen) (by simpa using hpw)
    rw [h]
  · intro t0 t26 ptail hlen hpw
    set prior := t0 :: ptail with hprior
    have hplen : prior.length = 25 := by simp [hprior, hlen]
    have hpw1 : List.Pairwise (fun x y : Int => y - x < windowMs) prior :=
      (List.pairwise_append.mp hpw).1
    have hcross : ∀ x ∈ prior, t26 - x < windowMs := by
      intro x hx
      exact (List.pairwise_append.mp hpw).2.2 x hx t26 (by simp)
    have htr : throttleTrace prior [] = (List.replicate 25 0, prior) := by
      have h := throttleTrace_under_limit prior []
        (by simp [hplen, maxRequests]) (by simpa using hpw1)
      rw [h, hplen]
      simp
    have hkeep : pruneLog t26 prior = prior := pruneLog_eq_self t26 prior hcross
    have ht0 : t26 - t0 < windowMs := hcross t0 (by simp [hprior])
    have hpos : 0 < windowMs - (t26 - t0) + safetyMarginMs := by
      unfold windowMs safetyMarginMs at *
      omega
    have hhead : (pruneLog t26 prior).headD 0 = t0 := by
      rw [hkeep, hprior]
      rfl
    have hw : throttleWaitMs t26 prior = windowMs - (t26 - t0) + safetyMarginMs := by
      have h := throttleWaitMs_of_full t26 prior
        (by rw [hkeep, hplen]; simp [maxRequests]) (by rw [hhead]; exact hpos)
      rw [hhead] at h
      exact h
    refine ⟨?_, hpos, by unfold windowMs safetyMarginMs at *; omega⟩
    rw [throttleTrace_append prior [t26] [], htr]
    simp only [throttleTrace, throttle, hw, maxRequests]

/-- Witness for C1 at concrete call instants: 25 calls at times 0,…,0
followed by a 26th at time 900 inside the same window. -/
theorem throttle_admission_spec_witness :
    (List.replicate 24 (0 : Int)).length = 24 ∧
    List.Pairwise (fun x y : Int => y - x < windowMs)
      (((0 : Int) :: List.replicate 24 (0 : Int)) ++ [900]) ∧
    (throttleTrace (((0 : Int) :: List.replicate 24 (0 : Int)) ++ [900]) []).1
      = List.replicate maxRequests 0 ++ [windowMs - ((900 : Int) - 0) + safetyMarginMs] := by
  refine ⟨by decide, by decide, ?_⟩
  exact (throttle_admission_spec.2 0 900 (List.replicate 24 0) (by decide) (by decide)).1

/-- C6: once the window has fully elapsed past every logged instant the log
prunes to empty and the next call is admitted with no delay; pruning retains
only entries within the window; and a call proceeds with no delay exactly when
the pruned log holds fewer than the configured maximum of entries. -/
theorem throttle_log_invariants :
    (∀ now : Int, ∀ log : List Int, (∀ ts ∈ log, windowMs ≤ now - ts) →
       pruneLog now log = [] ∧ throttle now log = (0, [now])) ∧
    (∀ now : Int, ∀ log : List Int, ∀ ts ∈ pruneLog now log, now - ts < windowMs) ∧
    (∀ now : Int, ∀ log : List Int,
       ((throttle now log).1 = 0 ↔ (pruneLog now log).length < maxRequests)) := by
  have hmemlem : ∀ now : Int, ∀ log : List Int, ∀ ts ∈ pruneLog now log,
      now - ts < windowMs := by
    intro now log ts hts
    have h := List.mem_filter.mp hts
    simpa using h.2
  refine ⟨?_, hmemlem, ?_⟩
  · intro now log h
    have hnil : pruneLog now log = [] := by
      unfold pruneLog
      apply List.filter_eq_nil_iff.mpr
      intro a ha
      simpa using Int.not_lt.mpr (h a ha)
    have hwait : throttleWaitMs now log = 0 := by
      apply throttleWaitMs_of_under
      rw [hnil]
      simp [maxRequests]
    refine ⟨hnil, ?_⟩
    unfold throttle
    rw [hwait, hnil, Int.add_zero]
    rfl
  · intro now log
    constructor
    · intro h0
      by_contra hge
      push_neg at hge
      cases hp : pruneLog now log with
      | nil =>
        rw [hp] at hge
        simp [maxRequests] at hge
      | cons a l =>
        have ha : a ∈ pruneLog now log := by rw [hp]; exact List.mem_cons_self a l
        have haw : now - a < windowMs := hmemlem now log a ha
        have hhead : (pruneLog now log).headD 0 = a := by rw [hp]; rfl
        have hpos : 0 < windowMs - (now - (pruneLog now log).headD 0) + safetyMarginMs := by
          rw [hhead]
          unfold windowMs safetyMarginMs at *
          omega
        have hw := throttleWaitMs_of_full now log hge hpos
        have : (throttle now log).1 = windowMs - (now - (pruneLog now log).headD 0)
            + safetyMarginMs := by
          unfold throttle
          rw [hw]
        rw [h0] at this
        omega
    · intro hlt
      unfold throttle
      rw [throttleWaitMs_of_under now log hlt]

/-- Witness for C6 at a concrete state: the window has elapsed past every
entry of the log `[0, 400]` at instant `1400`. -/
theorem throttle_log_invariants_witness :
    (∀ ts ∈ [(0 : Int), 400], windowMs ≤ (1400 : Int) - ts) ∧
    pruneLog 1400 [0, 400] = [] ∧ throttle 1400 [0, 400] = (0, [1400]) := by
  refine ⟨by decide, ?_, ?_⟩
  · exact (throttle_log_invariants.1 1400 [0, 400] (by decide)).1
  · exact (throttle_log_invariants.1 1400 [0, 400] (by decide)).2

/-! Request Builder (`StripeClient.request`, lines 52–72) and
`URLSearchParams` form encoding -/

/-- Characters that `URLSearchParams` serialization leaves unencoded:
ASCII alphanumerics and `*`, `-`, `.`, `_`. -/
def urlencodedSafeChar (c : Char) : Bool :=
  c.isAlphanum || c == '*' || c == '-' || c == '.' || c == '_'

/-- UTF-8 byte sequence of a character, for percent-encoding. -/
def utf8Bytes (c : Char) : List Nat :=
  let n := c.toNat
  if n < 128 then [n]
  else if n < 2048 then [192 + n / 64, 128 + n % 64]
  else if n < 65536 then [224 + n / 4096, 128 + n / 64 % 64, 128 + n % 64]
  else [240 + n / 262144, 128 + n / 4096 % 64, 128 + n / 64 % 64, 128 + n % 64]

def hexDigitChar (n : Nat) : Char :=
  if n < 10 then Char.ofNat (48 + n) else Char.ofNat (55 + n)

def percentEncodeByte (b : Nat) : String :=
  String.mk ['%', hexDigitChar (b / 16 % 16), hexDigitChar (b % 16)]

/-- Form-urlencoded encoding of one character: space
becomes `+`, safe characters pass through, everything else is
percent-encoded byte-wise. -/
def formEncodeChar (c : Char) : String :=
  if c == ' ' then "+"
  else if urlencodedSafeChar c then String.mk [c]
  else String.join ((utf8Bytes c).map percentEncodeByte)

def formEncode (s : String) : String :=
  String.join (s.data.map formEncodeChar)

/-- Serialization of `new URLSearchParams(pairs).toString()`: `k=v` pairs joined by `&`,
keys and values form-encoded. -/
def searchParamsToString (ps : List (String × String)) : String :=
  String.intercalate "&" (ps.map (fun p => formEncode p.1 ++ "=" ++ formEncode p.2))

/-- Lines 60–62: `Object.entries(params).filter(([, v]) => v !== undefined)`. -/
def filterDefined (ps : List (String × Option String)) : List (String × String) :=
  ps.filterMap (fun p => p.2.map (fun v => (p.1, v)))

/-- Line 1: the fixed base endpoint. -/
def BASE_URL : String := "https://api.stripe.com/v1"

/-- The wire-ready request descriptor assembled by lines 52–72. -/
structure BuiltRequest where
  url : String
  headers : List (String × String)
  body : Option String
  deriving DecidableEq

/-- Lines 52–72: URL, headers and body construction.  Every request carries
`Authorization: Bearer <secretKey>`; with parameters present, GET and DELETE
append the defined pairs as a query string (omitting the `?` when none
remain) and send no body, while any other verb sends the pairs as a
form-encoded body with the corresponding `Content-Type` header. -/
def buildRequest (method path : String) (params : Option (List (String × Option String)))
    (secretKey : String) : BuiltRequest :=
  let url := BASE_URL ++ path
  let authHeaders := [("Authorization", "Bearer " ++ secretKey)]
  match params with
  | none => { url := url, headers := authHeaders, body := none }
  | some ps =>
    let filtered := filterDefined ps
    if method == "GET" || method == "DELETE" then
      { url := if 0 < filtered.length then url ++ "?" ++ searchParamsToString filtered else url,
        headers := authHeaders, body := none }
    else
      { url := url,
        headers := authHeaders ++ [("Content-Type", "application/x-www-form-urlencoded")],
        body := some (searchParamsToString filtered) }

/-! Credential handling (`constructor`, lines 14–23) -/

/-- Line 18 (first half of the thrown message; the full text continues with
the dashboard pointer). -/
def configErrorMessage : String :=
  "STRIPE_SECRET_KEY environment variable is not set. " ++
    "Get your secret key from https://dashboard.stripe.com/apikeys"

/-- Lookup of a variable in `process.env`. -/
def lookupEnv (env : List (String × String)) (name : String) : Option String :=
  (env.find? (fun p => p.1 == name)).map (fun p => p.2)

/-- Lines 14–23: `StripeClient` construction — read `STRIPE_SECRET_KEY` from
the environment, throw when it is falsy (absent or empty), otherwise store it
as the immutable secret key. -/
def stripeClientNew (env : List (String × String)) : Except String String :=
  match lookupEnv env "STRIPE_SECRET_KEY" with
  | none => Except.error configErrorMessage
  | some k => if k = "" then Except.error configErrorMessage else Except.ok k

/-! Resource operation adapters (lines 101–243) -/

/-- Lines 101–110 (`createCustomer`): the parameter mapping passed to
`request`, in object-literal order. -/
def createCustomerParams (email name phone description : Option String) :
    List (String × Option String) :=
  [("email", email), ("name", name), ("phone", phone), ("description", description)]

/-- Lines 148–158 (`createProduct`): `active` uses an explicit
`!== undefined` guard before `String(active)`. -/
def createProductParams (name : String) (description : Option String)
    (active : Option Bool) : List (String × Option String) :=
  [("name", some name), ("description", description),
   ("active", match active with
              | some b => some (cond b "true" "false")
              | none => none)]

/-- Lines 164–172 (`listProducts`): `limit ? String(limit) : undefined` is a
truthiness test, so a zero limit maps to `undefined`; `active` uses the
`!== undefined` guard. -/
def listProductsParams (limit : Option Int) (active : Option Bool) :
    List (String × Option String) :=
  [("limit", match limit with
             | some n => if n = 0 then none else some (toString n)
             | none => none),
   ("active", match active with
              | some b => some (cond b "true" "false")
              | none => none)]

/-- Lines 178–193 (`createPrice`): `unit_amount` is unconditionally
`String(unitAmount)`; the `recurring[interval]` bracket-notation key is added
only when `recurringInterval` is truthy (defined and non-empty). -/
def createPriceParams (productId : String) (unitAmount : Int) (currency : String)
    (recurringInterval : Option String) : List (String × Option String) :=
  [("product", some productId), ("unit_amount", some (toString unitAmount)),
   ("currency", some currency)] ++
  (match recurringInterval with
   | some s => if s = "" then [] else [("recurring[interval]", some s)]
   | none => [])

/-! Transport & Retry (`StripeClient.request`, lines 45–95) -/

/-- A JavaScript number as far as the retry-delay computation needs it:
NaN, a signed infinity, or a finite value.  A finite value is encoded
exactly as an integer significand with a power-of-ten exponent, `num m e`
denoting m·10^e; the float64 rounding `Number` performs on top of the
string grammar is not modelled. -/
inductive JsNum where
  | nan : JsNum
  | inf : Bool → JsNum
  | num : Int → Int → JsNum
  deriving DecidableEq

/-- WhiteSpace and LineTerminator code points trimmed by the JS
string-to-number conversion: tab through carriage return, space, no-break
space, the Unicode space separators, the line and paragraph separators, and
the byte-order mark. -/
def jsWhitespace (c : Char) : Bool :=
  (9 ≤ c.toNat && c.toNat ≤ 13) || c.toNat == 32 || c.toNat == 160 ||
    c.toNat == 5760 || (8192 ≤ c.toNat && c.toNat ≤ 8202) || c.toNat == 8232 ||
    c.toNat == 8233 || c.toNat == 8239 || c.toNat == 8287 || c.toNat == 12288 ||
    c.toNat == 65279

/-- Numeric value of a digit character in the given radix, when valid. -/
def radixDigitVal (radix : Nat) (c : Char) : Option Nat :=
  let v : Option Nat :=
    if c.isDigit then some (c.toNat - 48)
    else if 'a' ≤ c && c ≤ 'z' then some (c.toNat - 87)
    else if 'A' ≤ c && c ≤ 'Z' then some (c.toNat - 55)
    else none
  match v with
  | some d => if d < radix then some d else none
  | none => none

/-- Value of a nonempty run of digits in the given radix, when all valid. -/
def radixDigitsVal (radix : Nat) (cs : List Char) : Option Nat :=
  if cs.isEmpty then none
  else
    cs.foldl (fun acc c =>
      match acc, radixDigitVal radix c with
      | some a, some d => some (a * radix + d)
      | _, _ => none) (some 0)

/-- ExponentPart of the JS decimal grammar: empty input means no exponent,
anything else must be `e` or `E`, an optional sign, and decimal digits. -/
def parseExponent : List Char → Option Int
  | [] => some 0
  | c :: cs =>
    if c == 'e' || c == 'E' then
      match cs with
      | '+' :: ds => (radixDigitsVal 10 ds).map (fun n => Int.ofNat n)
      | '-' :: ds => (radixDigitsVal 10 ds).map (fun n => -(Int.ofNat n : Int))
      | ds => (radixDigitsVal 10 ds).map (fun n => Int.ofNat n)
    else none

/-- StrUnsignedDecimalLiteral without the `Infinity` case: integer digits,
an optional dot with fraction digits, and an optional exponent; at least one
digit must appear on one side of the dot and nothing may remain.  The value
`(iv + fv·10^-f)·10^e` is returned exactly as the significand
`iv·10^f + fv` paired with the exponent `e - f`. -/
def parseUnsignedDec (cs : List Char) : Option (Nat × Int) :=
  let ip := cs.takeWhile (fun c => c.isDigit)
  let r1 := cs.dropWhile (fun c => c.isDigit)
  let fp : List Char := match r1 with
    | '.' :: tail => tail.takeWhile (fun c => c.isDigit)
    | _ => []
  let r2 : List Char := match r1 with
    | '.' :: tail => tail.dropWhile (fun c => c.isDigit)
    | _ => r1
  if ip.isEmpty && fp.isEmpty then none
  else
    match parseExponent r2 with
    | none => none
    | some e =>
      let iv : Nat := ip.foldl (fun a c => a * 10 + (c.toNat - 48)) 0
      let fv : Nat := fp.foldl (fun a c => a * 10 + (c.toNat - 48)) 0
      some (iv * 10 ^ fp.length + fv, e - (fp.length : Int))

/-- NonDecimalIntegerLiteral: `0x`/`0X` hex, `0o`/`0O` octal, `0b`/`0B`
binary digits, with no sign allowed. -/
def parseNonDecimal (cs : List Char) : Option Nat :=
  match cs with
  | '0' :: x :: ds =>
    if x == 'x' || x == 'X' then radixDigitsVal 16 ds
    else if x == 'o' || x == 'O' then radixDigitsVal 8 ds
    else if x == 'b' || x == 'B' then radixDigitsVal 2 ds
    else none
  | _ => none

/-- Models the JS `Number(s)` coercion of a string, following the
StringNumericLiteral grammar: surrounding whitespace is trimmed; an empty
remainder is 0; the remainder may be a non-decimal integer literal, or an
optionally signed `Infinity` or decimal literal with optional fraction and
exponent; every other string is NaN.  Finite values are kept exact in the
significand-and-exponent encoding, so the float64 rounding the JS engine
applies on top of this grammar is not modelled. -/
def jsNumberOfString (s : String) : JsNum :=
  let cs := ((s.data.dropWhile jsWhitespace).reverse.dropWhile jsWhitespace).reverse
  match cs with
  | [] => JsNum.num 0 0
  | _ =>
    match parseNonDecimal cs with
    | some m => JsNum.num (m : Int) 0
    | none =>
      let neg : Bool := match cs with
        | '-' :: _ => true
        | _ => false
      let body : List Char := match cs with
        | '+' :: t => t
        | '-' :: t => t
        | t => t
      if body = ['I', 'n', 'f', 'i', 'n', 'i', 't', 'y'] then JsNum.inf neg
      else
        match parseUnsignedDec body with
        | some p => JsNum.num (if neg then -(p.1 : Int) else (p.1 : Int)) p.2
        | none => JsNum.nan

/-- One scripted HTTP response, as observed through the `fetch` `Response`
object: status, status text, the `Retry-After` header (`headers.get` yields
`null` for an absent header, modelled as `none`), whether `res.text()`
succeeds and its value, and the result of `res.json()` when it succeeds. -/
structure FetchResponse where
  status : Nat
  statusText : String
  retryAfter : Option String
  bodyTextOk : Bool
  bodyText : String
  jsonBody : Option String
  deriving DecidableEq

/-- Line 74 `res.ok`: status in the 200–299 range. -/
def isOk (status : Nat) : Bool :=
  decide (200 ≤ status) && decide (status ≤ 299)

/-- Line 78: `const waitSec = retryAfter ? Number(retryAfter) : 2` — a falsy
header value (`null`, i.e. absent, or the empty string) yields the 2-second
default, otherwise `Number` is applied to the header string. -/
def retryWaitSec (r : FetchResponse) : JsNum :=
  match r.retryAfter with
  | some s => if s = "" then JsNum.num 2 0 else jsNumberOfString s
  | none => JsNum.num 2 0

/-- Line 79: `setTimeout(resolve, waitSec * 1000)` — the delay actually
slept, in ms: NaN, infinite and negative delays are coerced to no delay, and
a fractional delay of `m·10^e` seconds truncates to whole milliseconds
(`m·10^(e+3)` rounded toward zero, which for the non-negative case below is
integer division). -/
def retryDelayMs (r : FetchResponse) : Int :=
  match retryWaitSec r with
  | JsNum.nan => 0
  | JsNum.inf _ => 0
  | JsNum.num m e =>
    if m < 0 then 0
    else if 0 ≤ e + 3 then m * 10 ^ (e + 3).toNat
    else m / 10 ^ (-(e + 3)).toNat

theorem retryDelayMs_of_wait_two (r : FetchResponse)
    (h : retryWaitSec r = JsNum.num 2 0) : retryDelayMs r = 2000 := by
  simp only [retryDelayMs, h]
  decide

inductive RequestOutcome where
  | success : String → RequestOutcome
  | emptyObject : RequestOutcome
  | apiError : String → RequestOutcome
  | jsonError : RequestOutcome
  deriving DecidableEq

/-- The mutable client state threaded through `request`: the current instant,
the throttler's timestamp log, and a count of completed admission steps
(one per physical network attempt). -/
structure ClientState where
  now : Int
  log : List Int
  admissions : Nat
  deriving DecidableEq

/-- Line 50 `await this.throttle()`: perform the admission step, advancing
time by the suspension it performs. -/
def stepThrottle (s : ClientState) : ClientState :=
  { now := s.now + (throttle s.now s.log).1,
    log := (throttle s.now s.log).2,
    admissions := s.admissions + 1 }

/-- Line 86: the message of the `Error` thrown for a non-2xx, non-429
response; `res.text().catch(() => "")` substitutes the empty string when
reading the body fails. -/
def errorMessage (r : FetchResponse) : String :=
  "Stripe API error (" ++ toString r.status ++ " " ++ r.statusText ++ "): " ++
    (if r.bodyTextOk then r.bodyText else "")

/-- Lines 83–94, the non-429 tail of `request`: non-ok statuses throw, 204
returns the empty object without touching the body, other successes return
the JSON-decoded body (a decode failure propagates). -/
def finalOutcome (r : FetchResponse) : RequestOutcome :=
  if !isOk r.status then RequestOutcome.apiError (errorMessage r)
  else if r.status = 204 then RequestOutcome.emptyObject
  else
    match r.jsonBody with
    | some j => RequestOutcome.success j
    | none => RequestOutcome.jsonError

/-- Lines 45–95: the `request` retry loop over a scripted list of responses,
one per physical attempt.  Each attempt first runs the admission step, builds
and issues the descriptor for the given verb, path, parameter mapping and
key (lines 52–74); a 429 response sleeps for `retryDelayMs` and recurses on
the remaining script with the same arguments (line 80); anything else
resolves via `finalOutcome`.  Returns the retry delays slept, the
descriptors issued (one per physical attempt), the final client state, and
the outcome; `none` when the script is exhausted while still retrying. -/
def request (method path : String) (params : Option (List (String × Option String)))
    (key : String) :
    ClientState → List FetchResponse →
    Option (List Int × List BuiltRequest × ClientState × RequestOutcome)
  | _, [] => none
  | s, r :: rest =>
    if r.status = 429 then
      match request method path params key
          { stepThrottle s with now := (stepThrottle s).now + retryDelayMs r } rest with
      | none => none
      | some (ds, reqs, s2, out) =>
          some (retryDelayMs r :: ds, buildRequest method path params key :: reqs, s2, out)
    else some ([], [buildRequest method path params key], stepThrottle s, finalOutcome r)

theorem request_cons_non429 (method path : String)
    (params : Option (List (String × Option String))) (key : String)
    (s : ClientState) (r : FetchResponse) (rest : List FetchResponse) (h : r.status ≠ 429) :
    request method path params key s (r :: rest) =
      some ([], [buildRequest method path params key], stepThrottle s, finalOutcome r) := by
  unfold request
  rw [if_neg h]

theorem stepThrottle_admissions (s : ClientState) :
    (stepThrottle s).admissions = s.admissions + 1 := rfl

/-! String containment helper (for statements about error messages) -/

def hasPrefixChars : List Char → List Char → Bool
  | [], _ => true
  | _ :: _, [] => false
  | a :: as, b :: bs => a == b && hasPrefixChars as bs

def hasSubChars (needle : List Char) : List Char → Bool
  | [] => needle.isEmpty
  | c :: cs => hasPrefixChars needle (c :: cs) || hasSubChars needle cs

/-- True when `needle` occurs contiguously in `hay`. -/
def strContains (hay needle : String) : Bool :=
  hasSubChars needle.data hay.data

/-! Concrete responses used by the claims -/

/-- A 429 rate-limit response carrying the given `Retry-After` header. -/
def resp429 (ra : Option String) : FetchResponse :=
  { status := 429, statusText := "Too Many Requests", retryAfter := ra,
    bodyTextOk := true, bodyText := "", jsonBody := none }

/-- A plain 200 response with a decodable JSON body. -/
def resp200 : FetchResponse :=
  { status := 200, statusText := "OK", retryAfter := none,
    bodyTextOk := true, bodyText := "\x7b\x7d", jsonBody := some "\x7b\x7d" }

/-- The body text of the 404 example: `{"error":{"message":"No such customer"}}`. -/
def body404 : String := "\x7b\"error\":\x7b\"message\":\"No such customer\"\x7d\x7d"

/-- The 404 response of the spec's example. -/
def resp404 : FetchResponse :=
  { status := 404, statusText := "Not Found", retryAfter := none,
    bodyTextOk := true, bodyText := body404, jsonBody := none }

/-- C2: on a 429 response the client waits the server-supplied `Retry-After`
number of seconds (2 seconds when the header is absent) and reissues the
request through the admission step again, consuming a new rate-window slot;
retries continue with no count ceiling until a non-429 outcome. -/
theorem retry_on_429 :
    (∀ r : FetchResponse, ∀ s : String, ∀ n : Nat, r.retryAfter = some s → s ≠ "" →
       jsNumberOfString s = JsNum.num (n : Int) 0 →
       retryDelayMs r = (n : Int) * 1000) ∧
    (∀ r : FetchResponse, r.retryAfter = none → retryDelayMs r = 2000) ∧
    (∀ k : Nat, ∀ r rlast : FetchResponse, r.status = 429 → rlast.status ≠ 429 →
       ∀ method path : String, ∀ params : Option (List (String × Option String)),
       ∀ key : String, ∀ s : ClientState, ∃ s2 : ClientState,
         request method path params key s (List.replicate k r ++ [rlast]) =
           some (List.replicate k (retryDelayMs r),
                 List.replicate (k + 1) (buildRequest method path params key),
                 s2, finalOutcome rlast) ∧
         s2.admissions = s.admissions + k + 1) := by
  refine ⟨?_, ?_, ?_⟩
  · intro r s n hra hne hnum
    simp only [retryDelayMs, retryWaitSec, hra, if_neg hne, hnum]
    rw [if_neg (not_lt.mpr (Int.natCast_nonneg n)), if_pos (by norm_num),
      show ((0 : Int) + 3).toNat = 3 by decide]
    norm_num
  · intro r hra
    refine retryDelayMs_of_wait_two r ?_
    unfold retryWaitSec
    rw [hra]
  · intro k
    induction k with
    | zero =>
      intro r rlast _ hnl method path params key s
      refine ⟨stepThrottle s, ?_, stepThrottle_admissions s⟩
      simpa using request_cons_non429 method path params key s rlast [] hnl
    | succ k ih =>
      intro r rlast h429 hnl method path params key s
      obtain ⟨s2, heq, hadm⟩ := ih r rlast h429 hnl method path params key
        { stepThrottle s with now := (stepThrottle s).now + retryDelayMs r }
      refine ⟨s2, ?_, ?_⟩
      · rw [List.replicate_succ, List.cons_append]
        unfold request
        rw [if_pos h429, heq]
        simp only [List.replicate_succ]
      · rw [hadm]
        have : ({ stepThrottle s with
                  now := (stepThrottle s).now + retryDelayMs r }).admissions
            = s.admissions + 1 := rfl
        omega

/-- Witness for C2: a `Retry-After` of 5 seconds sleeps 5000 ms, an absent
header sleeps 2000 ms, and two scripted 429s followed by a 200 retry through
to success with three admission steps. -/
theorem retry_on_429_witness :
    ((resp429 (some "5")).retryAfter = some "5" ∧ ("5" : String) ≠ "" ∧
      jsNumberOfString "5" = JsNum.num ((5 : Nat) : Int) 0 ∧
      retryDelayMs (resp429 (some "5")) = (5 : Int) * 1000) ∧
    ((resp429 none).retryAfter = none ∧ retryDelayMs (resp429 none) = 2000) ∧
    ((resp429 none).status = 429 ∧ resp200.status ≠ 429 ∧
      ∃ s2 : ClientState,
        request "GET" "/balance" none "sk" ⟨0, [], 0⟩
            (List.replicate 2 (resp429 none) ++ [resp200]) =
          some (List.replicate 2 (retryDelayMs (resp429 none)),
                List.replicate 3 (buildRequest "GET" "/balance" none "sk"),
                s2, finalOutcome resp200) ∧
        s2.admissions = (0 : Nat) + 2 + 1) := by
  refine ⟨⟨rfl, by decide, by decide, ?_⟩, ⟨rfl, ?_⟩, rfl, by decide, ?_⟩
  · exact retry_on_429.1 (resp429 (some "5")) "5" 5 rfl (by decide) (by decide)
  · exact retry_on_429.2.1 (resp429 none) rfl
  · exact retry_on_429.2.2 2 (resp429 none) resp200 rfl (by decide)
      "GET" "/balance" none "sk" ⟨0, [], 0⟩

/-- C3: a non-2xx, non-429 response raises a failure whose message carries the
numeric status, the status text, and the body text (empty string when reading
fails) and is not retried; a 204 returns the empty result without parsing a
body; any other success status returns the JSON-decoded body; and the 404
example produces a failure whose message contains `404` and the body text. -/
theorem response_mapping :
    (∀ m p : String, ∀ ps : Option (List (String × Option String)), ∀ key : String,
       ∀ s : ClientState, ∀ r : FetchResponse, ∀ rest : List FetchResponse,
       ¬(200 ≤ r.status ∧ r.status ≤ 299) → r.status ≠ 429 →
       request m p ps key s (r :: rest) =
         some ([], [buildRequest m p ps key], stepThrottle s, RequestOutcome.apiError
           ("Stripe API error (" ++ toString r.status ++ " " ++ r.statusText ++ "): " ++
             (if r.bodyTextOk then r.bodyText else "")))) ∧
    (∀ m p : String, ∀ ps : Option (List (String × Option String)), ∀ key : String,
       ∀ s : ClientState, ∀ rest : List FetchResponse, ∀ r : FetchResponse, r.status = 204 →
       request m p ps key s (r :: rest) =
         some ([], [buildRequest m p ps key], stepThrottle s, RequestOutcome.emptyObject)) ∧
    (∀ m p : String, ∀ ps : Option (List (String × Option String)), ∀ key : String,
       ∀ s : ClientState, ∀ rest : List FetchResponse, ∀ r : FetchResponse, ∀ j : String,
       200 ≤ r.status → r.status ≤ 299 → r.status ≠ 204 → r.jsonBody = some j →
       request m p ps key s (r :: rest) =
         some ([], [buildRequest m p ps key], stepThrottle s, RequestOutcome.success j)) ∧
    (strContains (errorMessage resp404) "404" = true ∧
     strContains (errorMessage resp404) body404 = true ∧
     ∀ key : String, ∀ s : ClientState, ∀ rest : List FetchResponse,
       request "GET" "/customers/cus_none" none key s (resp404 :: rest) =
         some ([], [buildRequest "GET" "/customers/cus_none" none key], stepThrottle s,
           RequestOutcome.apiError (errorMessage resp404))) := by
  refine ⟨?_, ?_, ?_, by decide, by decide, ?_⟩
  · intro m p ps key s r rest hne h429
    rw [request_cons_non429 m p ps key s r rest h429]
    have hok : isOk r.status = false := by
      unfold isOk
      by_cases h2 : 200 ≤ r.status
      · have h3 : ¬ r.status ≤ 299 := fun hc => hne ⟨h2, hc⟩
        simp [h3]
      · simp [h2]
    simp [finalOutcome, hok, errorMessage]
  · intro m p ps key s rest r h204
    rw [request_cons_non429 m p ps key s r rest (by omega)]
    simp [finalOutcome, isOk, h204]
  · intro m p ps key s rest r j hlo hhi h204 hjson
    rw [request_cons_non429 m p ps key s r rest (by omega)]
    have hok : isOk r.status = true := by simp [isOk]; omega
    simp [finalOutcome, hok, h204, hjson]
  · intro key s rest
    rw [request_cons_non429 "GET" "/customers/cus_none" none key s resp404 rest (by decide)]
    have h : finalOutcome resp404 = RequestOutcome.apiError (errorMessage resp404) := by decide
    rw [h]

/-- Witness for C3: a concrete 500 failure, a concrete 204, and a concrete
200 with JSON body, each mapped from the initial client state. -/
theorem response_mapping_witness :
    (¬(200 ≤ (500 : Nat) ∧ (500 : Nat) ≤ 299) ∧ (500 : Nat) ≠ 429 ∧
      request "GET" "/balance" none "sk" ⟨0, [], 0⟩
          [⟨500, "Internal Server Error", none, false, "oops", none⟩] =
        some ([], [buildRequest "GET" "/balance" none "sk"], stepThrottle ⟨0, [], 0⟩,
          RequestOutcome.apiError
          ("Stripe API error (" ++ toString (500 : Nat) ++ " " ++ "Internal Server Error"
            ++ "): " ++ ""))) ∧
    (request "GET" "/balance" none "sk" ⟨0, [], 0⟩ [⟨204, "No Content", none, true, "", none⟩] =
      some ([], [buildRequest "GET" "/balance" none "sk"], stepThrottle ⟨0, [], 0⟩,
        RequestOutcome.emptyObject)) ∧
    (request "GET" "/balance" none "sk" ⟨0, [], 0⟩ [resp200] =
      some ([], [buildRequest "GET" "/balance" none "sk"], stepThrottle ⟨0, [], 0⟩,
        RequestOutcome.success "\x7b\x7d")) := by
  refine ⟨⟨by decide, by decide, ?_⟩, ?_, ?_⟩
  · simpa using response_mapping.1 "GET" "/balance" none "sk" ⟨0, [], 0⟩
      ⟨500, "Internal Server Error", none, false, "oops", none⟩ [] (by decide) (by decide)
  · exact response_mapping.2.1 "GET" "/balance" none "sk" ⟨0, [], 0⟩ []
      ⟨204, "No Content", none, true, "", none⟩ rfl
  · exact response_mapping.2.2.1 "GET" "/balance" none "sk" ⟨0, [], 0⟩ [] resp200 "\x7b\x7d"
      (by decide) (by decide) (by decide) rfl

/-- A 429 response whose `Retry-After` header is present but empty. -/
def resp429EmptyHeader : FetchResponse := resp429 (some "")

/-- C9 counterexample: an empty `Retry-After` header is present yet yields the
2-second default delay — not `Number(header)` — because line 78 tests the
header string for truthiness and the empty string is falsy. -/
theorem retry_after_empty_counterexample :
    resp429EmptyHeader.retryAfter = some "" ∧ some "" ≠ (none : Option String) ∧
    retryDelayMs resp429EmptyHeader = 2000 ∧ retryDelayMs resp429EmptyHeader ≠ 0 := by
  have h : retryDelayMs resp429EmptyHeader = 2000 := retryDelayMs_of_wait_two _ rfl
  exact ⟨rfl, by decide, h, by rw [h]; decide⟩

/-- C9 amended: a present, non-empty `Retry-After` value that is not a
numeric string makes `Number(header)` NaN and the retry sleeps 0 ms; the
2-second default applies exactly when the header is absent or the empty
string (both falsy at line 78). -/
theorem retry_after_nan_amended :
    (∀ r : FetchResponse, ∀ s : String, r.retryAfter = some s → s ≠ "" →
       jsNumberOfString s = JsNum.nan → retryDelayMs r = 0) ∧
    (∀ r : FetchResponse, r.retryAfter = none ∨ r.retryAfter = some "" →
       retryDelayMs r = 2000) := by
  constructor
  · intro r s hra hne hnan
    simp [retryDelayMs, retryWaitSec, hra, hne, hnan]
  · intro r hra
    rcases hra with h | h
    · exact retryDelayMs_of_wait_two r (by simp [retryWaitSec, h])
    · exact retryDelayMs_of_wait_two r (by simp [retryWaitSec, h])

/-- Witness for C9's amended claim: the non-numeral header `soon` sleeps 0 ms
and the empty header sleeps the 2000 ms default. -/
theorem retry_after_nan_amended_witness :
    ((resp429 (some "soon")).retryAfter = some "soon" ∧ ("soon" : String) ≠ "" ∧
      jsNumberOfString "soon" = JsNum.nan ∧ retryDelayMs (resp429 (some "soon")) = 0) ∧
    retryDelayMs resp429EmptyHeader = 2000 := by
  refine ⟨⟨rfl, by decide, by decide, ?_⟩, ?_⟩
  · exact retry_after_nan_amended.1 (resp429 (some "soon")) "soon" rfl (by decide) (by decide)
  · exact retry_after_nan_amended.2 resp429EmptyHeader (Or.inr rfl)

/-- C4: undefined parameters are removed; GET and DELETE send no body and
append the remaining pairs as a percent-encoded query string, with no `?`
when none remain; POST sends the remaining pairs as a form-encoded body with
the `application/x-www-form-urlencoded` content type; structured fields use
bracket-notation keys. -/
theorem request_builder_spec :
    (∀ ps : List (String × Option String), ∀ k v : String,
       (k, v) ∈ filterDefined ps ↔ (k, some v) ∈ ps) ∧
    (∀ m : String, m = "GET" ∨ m = "DELETE" → ∀ path : String,
       ∀ ps : List (String × Option String), ∀ key : String,
       (buildRequest m path (some ps) key).body = none ∧
       (buildRequest m path (some ps) key).url =
         (if filterDefined ps = [] then BASE_URL ++ path
          else BASE_URL ++ path ++ "?" ++ searchParamsToString (filterDefined ps))) ∧
    (∀ path : String, ∀ ps : List (String × Option String), ∀ key : String,
       (buildRequest "POST" path (some ps) key).url = BASE_URL ++ path ∧
       (buildRequest "POST" path (some ps) key).body
         = some (searchParamsToString (filterDefined ps)) ∧
       ("Content-Type", "application/x-www-form-urlencoded")
         ∈ (buildRequest "POST" path (some ps) key).headers) ∧
    (formEncode "recurring[interval]" = "recurring%5Binterval%5D" ∧
     formEncode "items[0][price]" = "items%5B0%5D%5Bprice%5D") := by
  refine ⟨?_, ?_, ?_, by decide, by decide⟩
  · intro ps k v
    constructor
    · intro h
      obtain ⟨⟨k2, ov⟩, hmem, hf⟩ := List.mem_filterMap.mp h
      simp only [Option.map_eq_some'] at hf
      obtain ⟨a, hov, heq⟩ := hf
      simp only [Prod.mk.injEq] at heq
      obtain ⟨rfl, rfl⟩ := heq
      rw [← hov]
      exact hmem
    · intro h
      exact List.mem_filterMap.mpr ⟨(k, some v), h, rfl⟩
  · rintro m (rfl | rfl) path ps key <;>
      cases hf : filterDefined ps with
      | nil => simp [buildRequest, hf]
      | cons a l => simp [buildRequest, hf]
  · intro path ps key
    refine ⟨rfl, rfl, ?_⟩
    simp [buildRequest]

/-- Witness for C4 at a concrete parameter mapping with one defined and one
undefined entry, for GET and for POST. -/
theorem request_builder_spec_witness :
    (("limit", "10") ∈ filterDefined [("limit", some "10"), ("email", none)] ↔
      ("limit", some "10") ∈ [("limit", some "10"), ("email", none)]) ∧
    (("GET" : String) = "GET" ∨ ("GET" : String) = "DELETE") ∧
    (buildRequest "GET" "/customers" (some [("limit", some "10"), ("email", none)]) "sk").body
      = none ∧
    (buildRequest "GET" "/customers" (some [("limit", some "10"), ("email", none)]) "sk").url =
      (if filterDefined [("limit", some "10"), ("email", none)] = []
       then BASE_URL ++ "/customers"
       else BASE_URL ++ "/customers" ++ "?"
         ++ searchParamsToString (filterDefined [("limit", some "10"), ("email", none)])) ∧
    (buildRequest "POST" "/customers" (some [("email", some "a@b.com")]) "sk").body
      = some (searchParamsToString (filterDefined [("email", some "a@b.com")])) := by
  refine ⟨request_builder_spec.1 _ "limit" "10", Or.inl rfl, ?_, ?_,
    (request_builder_spec.2.2.1 "/customers" [("email", some "a@b.com")] "sk").2.1⟩
  · exact (request_builder_spec.2.1 "GET" (Or.inl rfl) "/customers"
      [("limit", some "10"), ("email", none)] "sk").1
  · exact (request_builder_spec.2.1 "GET" (Or.inl rfl) "/customers"
      [("limit", some "10"), ("email", none)] "sk").2

/-- C7: construction reads `STRIPE_SECRET_KEY` from the environment, failing
with the configuration error when it is absent and storing the key otherwise,
and every built request, for every verb, carries the
`Authorization: Bearer <credential>` header. -/
theorem credential_spec :
    (∀ env : List (String × String), lookupEnv env "STRIPE_SECRET_KEY" = none →
       stripeClientNew env = Except.error configErrorMessage) ∧
    (∀ env : List (String × String), ∀ k : String,
       lookupEnv env "STRIPE_SECRET_KEY" = some k → k ≠ "" →
       stripeClientNew env = Except.ok k) ∧
    (∀ method path : String, ∀ params : Option (List (String × Option String)),
       ∀ key : String,
       ("Authorization", "Bearer " ++ key) ∈ (buildRequest method path params key).headers) := by
  refine ⟨?_, ?_, ?_⟩
  · intro env h
    simp [stripeClientNew, h]
  · intro env k h hne
    simp [stripeClientNew, h, hne]
  · intro method path params key
    cases params with
    | none => simp [buildRequest]
    | some ps =>
      by_cases h : (method == "GET" || method == "DELETE") = true
      · simp [buildRequest, h]
      · simp [buildRequest, h]

/-- Witness for C7: an environment lacking the key fails construction, one
carrying it succeeds, and a concrete GET request carries the bearer header. -/
theorem credential_spec_witness :
    lookupEnv [("PATH", "/bin")] "STRIPE_SECRET_KEY" = none ∧
    stripeClientNew [("PATH", "/bin")] = Except.error configErrorMessage ∧
    lookupEnv [("STRIPE_SECRET_KEY", "sk_test_1")] "STRIPE_SECRET_KEY" = some "sk_test_1" ∧
    ("sk_test_1" : String) ≠ "" ∧
    stripeClientNew [("STRIPE_SECRET_KEY", "sk_test_1")] = Except.ok "sk_test_1" ∧
    ("Authorization", "Bearer " ++ "sk_test_1")
      ∈ (buildRequest "GET" "/balance" none "sk_test_1").headers := by
  refine ⟨by decide, ?_, by decide, by decide, ?_, ?_⟩
  · exact credential_spec.1 _ (by decide)
  · exact credential_spec.2.1 _ "sk_test_1" (by decide) (by decide)
  · exact credential_spec.2.2 "GET" "/balance" none "sk_test_1"

/-- C5 counterexample: the defined numeric limit 0 is a defined argument of
`listProducts`, yet the built request omits `limit` entirely — its truthiness
guard maps 0 to `undefined`. -/
theorem limit_zero_dropped_counterexample :
    (listProductsParams (some 0) none).head? = some ("limit", none) ∧
    filterDefined (listProductsParams (some 0) none) = [] ∧
    (buildRequest "GET" "/products" (some (listProductsParams (some 0) none)) "sk").url
      = "https://api.stripe.com/v1/products" ∧
    strContains
      (buildRequest "GET" "/products" (some (listProductsParams (some 0) none)) "sk").url
      "limit" = false := by
  decide

/-- C5 amended: boolean arguments and numeric arguments passing the adapters'
guards are sent as their string representations (a numeric `limit` of zero is
falsy and dropped like an undefined one): the create-price example builds
exactly the claimed body, a nonzero limit is sent as its decimal string, and
a false `active` flag is sent as the string `false`. -/
theorem typed_params_stringified :
    ((buildRequest "POST" "/prices"
        (some (createPriceParams "prod_1" 5000 "usd" (some "month"))) "sk").body
      = some "product=prod_1&unit_amount=5000&currency=usd&recurring%5Binterval%5D=month") ∧
    (∀ n : Int, n ≠ 0 →
       filterDefined (listProductsParams (some n) none) = [("limit", toString n)]) ∧
    (∀ pid cur : String, ∀ amt : Int,
       ("unit_amount", toString amt) ∈ filterDefined (createPriceParams pid amt cur none)) ∧
    (filterDefined (createProductParams "Widget" none (some false))
      = [("name", "Widget"), ("active", "false")]) := by
  refine ⟨by decide, ?_, ?_, by decide⟩
  · intro n hn
    simp [listProductsParams, filterDefined, hn]
  · intro pid cur amt
    simp [createPriceParams, filterDefined]

/-- Witness for C5's amended claim at limit 10 and unit amount 5000. -/
theorem typed_params_stringified_witness :
    (10 : Int) ≠ 0 ∧
    filterDefined (listProductsParams (some 10) none) = [("limit", toString (10 : Int))] ∧
    ("unit_amount", toString (5000 : Int))
      ∈ filterDefined (createPriceParams "prod_1" 5000 "usd" none) := by
  exact ⟨by decide, typed_params_stringified.2.1 10 (by decide),
    typed_params_stringified.2.2.1 "prod_1" "usd" 5000⟩

/-- C10: an empty-string `recurringInterval` (a defined value) fails
`createPrice`'s truthiness guard, so the `recurring[interval]` key is omitted
exactly as when the argument is absent, while the generic filter in `request`
drops only undefined values, so an empty-string email in `createCustomer` is
sent as `email=`. -/
theorem empty_interval_vs_empty_email :
    (∀ pid cur : String, ∀ amt : Int,
       createPriceParams pid amt cur (some "") = createPriceParams pid amt cur none ∧
       (createPriceParams pid amt cur (some "")).map Prod.fst
         = ["product", "unit_amount", "currency"]) ∧
    ((buildRequest "POST" "/customers"
        (some (createCustomerParams (some "") none none none)) "sk").body
      = some "email=") := by
  refine ⟨?_, by decide⟩
  intro pid cur amt
  constructor
  · simp [createPriceParams]
  · simp [createPriceParams]

/-- Witness for C10 at a concrete price: the empty interval builds the same
parameters as the absent one. -/
theorem empty_interval_vs_empty_email_witness :
    createPriceParams "prod_1" 5000 "usd" (some "")
      = createPriceParams "prod_1" 5000 "usd" none ∧
    (createPriceParams "prod_1" 5000 "usd" (some "")).map Prod.fst
      = ["product", "unit_amount", "currency"] := by
  exact ⟨(empty_interval_vs_empty_email.1 "prod_1" "usd" 5000).1,
    (empty_interval_vs_empty_email.1 "prod_1" "usd" 5000).2⟩

end StripeSpec
